import Mathlib

/-!
Verification of the line-oriented translation tool in translate.py
(renpy-file-translator).

The program is embedded shallowly:

* lines and strings are `List Char`;
* the two regexes `^\s*old\s+"(.*)"` and `^\s*new\s+"(.*)"` (used with
  `re.match`) are embedded by `matchDecl`: optional leading whitespace, the
  keyword, at least one whitespace character, an opening quote, and a greedy
  group that extends to the last quote of the line (trailing text after that
  quote is allowed, since `re.match` does not anchor the end);
* the call to `re.sub` with pattern `new\s+".*"` and replacement
  `new "T"` is embedded by `re_sub_new`:
  the replacement template is parsed first (Python processes backslash
  escapes and group references in a string replacement and raises `re.error`
  on bad escapes or invalid group references), then every non-overlapping
  leftmost match is replaced;
* the HTTP POST to the DeepL endpoint is abstracted by a function
  `net : DeeplRequest -> Except Unit (List Char)`; `Except.error ()` stands
  for a raised `requests.exceptions.RequestException`, `Except.ok s` for a
  successful response whose first translation text is `s`.  The list of
  `DeeplRequest` values returned by the embedding records exactly the
  requests that were issued;
* raised Python exceptions are `Except.error` values at the top level.

Whitespace is modelled as the six ASCII whitespace characters recognised by
the Python `\s` class and `str.strip` (further Unicode whitespace is not
modelled).
-/

/-- Whitespace as matched by Python `\s` and stripped by `str.strip`
(ASCII part). -/
def isPySpace (c : Char) : Bool :=
  c = ' ' || c = '\t' || c = '\n' || c = '\r' || c = '\x0b' || c = '\x0c'

/-- Python `str.strip()`: remove leading and trailing whitespace. -/
def py_strip (l : List Char) : List Char :=
  ((l.dropWhile isPySpace).reverse.dropWhile isPySpace).reverse

/-- Split a character list at its last double quote: returns the part before
the last `"` and the part after it, or `none` when the list has no quote.
This is how a greedy `(.*)"` consumes its input. -/
def splitLastQuote : List Char → Option (List Char × List Char)
  | [] => none
  | c :: rest =>
    match splitLastQuote rest with
    | some (g, t) => some (c :: g, t)
    | none => if c = '"' then some ([], rest) else none

/-- Embedding of a `re.match` of the pattern `^\s*KW\s+"(.*)"` for a keyword `KW`:
returns the text captured by the group when the line matches.  The leading
`\s*` and the `\s+` after the keyword are forced to be maximal (the next
pattern characters are not whitespace), and the greedy group runs to the
last quote of the line. -/
def matchDecl (kw : List Char) (line : List Char) : Option (List Char) :=
  let l1 := line.dropWhile isPySpace
  if kw.isPrefixOf l1 then
    match l1.drop kw.length with
    | [] => none
    | c :: _ =>
      if isPySpace c then
        match (l1.drop kw.length).dropWhile isPySpace with
        | '"' :: l4 => Prod.fst <$> splitLastQuote l4
        | _ => none
      else none
  else none

/-- Embedding of `old_pattern.match(line)` returning group 1
(translate.py line 72/82). -/
def old_pattern_match (line : List Char) : Option (List Char) :=
  matchDecl ('o' :: 'l' :: 'd' :: []) line

/-- Embedding of `new_pattern.match(line)` returning group 1
(translate.py line 74/90). -/
def new_pattern_match (line : List Char) : Option (List Char) :=
  matchDecl ('n' :: 'e' :: 'w' :: []) line

/-- Octal digit test, as used by Python template parsing. -/
def isOctDigit (c : Char) : Bool := '0' ≤ c && c ≤ '7'

/-- Decimal digit test. -/
def isDigitCh (c : Char) : Bool := '0' ≤ c && c ≤ '9'

/-- ASCII letter test. -/
def isAsciiLetter (c : Char) : Bool :=
  ('a' ≤ c && c ≤ 'z') || ('A' ≤ c && c ≤ 'Z')

/-- Numeric value of a digit character. -/
def octVal (c : Char) : Nat := c.toNat - 48

/-- One item of a parsed `re.sub` replacement template: either a literal
character or a reference to group 0 (the whole match), written `\g<0>`.
The replacement template used by translate.py has no other valid group
references because the pattern `new\s+".*"` has no groups. -/
inductive TItem where
  | lit (c : Char)
  | grp0
  deriving DecidableEq

/-- Embedding of CPython `re._parser.parse_template` for a pattern with zero
groups.  The first argument is a mode flag: `true` means the parser is inside
a `\g<0...` group reference and is consuming zeros until the closing `>`.
Returns `none` exactly when Python raises `re.error`: on a trailing
backslash, an unknown escape of an ASCII letter, a reference to a group
other than 0 (the pattern has no groups), a malformed `\g<...>`, or an octal
escape above 0o377.  Recognised escapes `\a \b \f \n \r \t \v \\`, octal
escapes, and other non-letter escapes (kept verbatim with their backslash)
follow Python. -/
def parse_template_go : Bool → List Char → Option (List TItem)
  | b, [] => if b then none else some []
  | true, c :: r =>
    if c = '0' then parse_template_go true r
    else if c = '>' then (fun its => TItem.grp0 :: its) <$> parse_template_go false r
    else none
  | false, c :: r =>
    if c = '\\' then
      match r with
      | [] => none
      | e :: r2 =>
        if e = '\\' then (fun its => TItem.lit '\\' :: its) <$> parse_template_go false r2
        else if e = 'a' then (fun its => TItem.lit (Char.ofNat 7) :: its) <$> parse_template_go false r2
        else if e = 'b' then (fun its => TItem.lit (Char.ofNat 8) :: its) <$> parse_template_go false r2
        else if e = 'f' then (fun its => TItem.lit (Char.ofNat 12) :: its) <$> parse_template_go false r2
        else if e = 'n' then (fun its => TItem.lit '\n' :: its) <$> parse_template_go false r2
        else if e = 'r' then (fun its => TItem.lit '\r' :: its) <$> parse_template_go false r2
        else if e = 't' then (fun its => TItem.lit '\t' :: its) <$> parse_template_go false r2
        else if e = 'v' then (fun its => TItem.lit (Char.ofNat 11) :: its) <$> parse_template_go false r2
        else if e = 'g' then
          match r2 with
          | a :: b2 :: r3 =>
            if a = '<' && b2 = '0' then parse_template_go true r3 else none
          | _ => none
        else if e = '0' then
          match r2 with
          | [] => some (TItem.lit (Char.ofNat 0) :: [])
          | d1 :: r3 =>
            if isOctDigit d1 then
              match r3 with
              | d2 :: r4 =>
                if isOctDigit d2 then
                  (fun its => TItem.lit (Char.ofNat (8 * octVal d1 + octVal d2)) :: its) <$>
                    parse_template_go false r4
                else
                  (fun its => TItem.lit (Char.ofNat (octVal d1)) :: its) <$>
                    parse_template_go false (d2 :: r4)
              | [] => some (TItem.lit (Char.ofNat (octVal d1)) :: [])
            else (fun its => TItem.lit (Char.ofNat 0) :: its) <$> parse_template_go false (d1 :: r3)
        else if isDigitCh e then
          match r2 with
          | d2 :: r3 =>
            if isDigitCh d2 then
              match r3 with
              | d3 :: r4 =>
                if isOctDigit e && isOctDigit d2 && isOctDigit d3 then
                  let v := 64 * octVal e + 8 * octVal d2 + octVal d3
                  if v ≤ 255 then
                    (fun its => TItem.lit (Char.ofNat v) :: its) <$> parse_template_go false r4
                  else none
                else none
              | [] => none
            else none
          | [] => none
        else if isAsciiLetter e then none
        else (fun its => TItem.lit '\\' :: TItem.lit e :: its) <$> parse_template_go false r2
    else (fun its => TItem.lit c :: its) <$> parse_template_go false r

/-- Parse an `re.sub` replacement template (pattern has zero groups). -/
def parse_template (templ : List Char) : Option (List TItem) :=
  parse_template_go false templ

/-- Expand a parsed replacement template against the matched text
(`\g<0>` expands to the whole match). -/
def expand_template (items : List TItem) (matched : List Char) : List Char :=
  match items with
  | [] => []
  | TItem.lit c :: r => c :: expand_template r matched
  | TItem.grp0 :: r => matched ++ expand_template r matched

/-- Try to match the unanchored pattern `new\s+".*"` at the start of `l`.
Returns the matched text and the remainder after the match.  As in
`matchDecl`, `\s+` is maximal and the greedy `.*"` runs to the last quote. -/
def sub_match_at (l : List Char) : Option (List Char × List Char) :=
  if ('n' :: 'e' :: 'w' :: []).isPrefixOf l then
    match l.drop 3 with
    | [] => none
    | c :: _ =>
      if isPySpace c then
        match (l.drop 3).dropWhile isPySpace with
        | '"' :: l4 =>
          match splitLastQuote l4 with
          | some (g, rest) =>
            some (('n' :: 'e' :: 'w' :: []) ++ (l.drop 3).takeWhile isPySpace ++
              '"' :: (g ++ '"' :: []), rest)
          | none => none
        | _ => none
      else none
  else none

/-- The left-to-right scan of `re.sub`: at each position try the pattern; on
a match emit the expanded replacement and resume after the matched text; on
no match keep the character.  The `Nat` argument counts characters of a
match that remain to be skipped (the head of a match is consumed by the
position where it was found, hence `m.length - 1`; a match of this pattern
is never empty, it always starts with `new`). -/
def sub_scan (repl : List TItem) : Nat → List Char → List Char
  | _, [] => []
  | n + 1, _ :: rest => sub_scan repl n rest
  | 0, c :: rest =>
    match sub_match_at (c :: rest) with
    | some (m, _) => expand_template repl m ++ sub_scan repl (m.length - 1) rest
    | none => c :: sub_scan repl 0 rest

/-- Embedding of the `re.sub` call of translate.py line 98: pattern
`new\s+".*"`, replacement the characters of `new "` followed by the
translation and a closing quote.  Python first processes the replacement string as a
template (raising `re.error` on bad escapes or invalid group references,
modelled as `none`), then replaces every non-overlapping match. -/
def re_sub_new (translation : List Char) (line : List Char) : Option (List Char) :=
  match parse_template (('n' :: 'e' :: 'w' :: ' ' :: '"' :: []) ++ translation ++ '"' :: []) with
  | none => none
  | some repl => some (sub_scan repl 0 line)

/-- The form parameters of one HTTP POST to the DeepL endpoint
(translate.py lines 42-50). -/
structure DeeplRequest where
  auth_key : List Char
  text : List Char
  target_lang : List Char
  formality : Option (List Char)
  deriving DecidableEq

/-- The optional `formality` form parameter: sent (lower-cased) only when
the lower-cased setting is `more` or `less` (translate.py lines 49-50). -/
def formality_param (formality : List Char) : Option (List Char) :=
  let fl := formality.map Char.toLower
  if fl = ('m' :: 'o' :: 'r' :: 'e' :: []) || fl = ('l' :: 'e' :: 's' :: 's' :: []) then some fl
  else none

/-- Message of the `ValueError` raised when the API key is missing
(translate.py line 40; the apostrophe of the original message is elided). -/
def missing_key_error : List Char :=
  ("DEEPL_API_KEY not found. Make sure it is set in .env").data

/-- Stand-in for the `re.error` raised while parsing a bad replacement
template (bad escape or invalid group reference). -/
def re_error_bad_template : List Char :=
  ("re.error: bad escape or invalid group reference in replacement template").data

/-- Embedding of `translate_text` (translate.py lines 31-60).  `key` is the
`DEEPL_API_KEY` environment value, `net` the abstracted HTTP POST.  Returns
the value returned (or the exception raised, as `Except.error`) together
with the list of HTTP requests issued.  On a transport failure
(`net _ = Except.error ()`, a `requests.exceptions.RequestException`) the
original text is returned as fallback. -/
def translate_text (key : Option (List Char)) (net : DeeplRequest → Except Unit (List Char))
    (text target_lang formality : List Char) :
    Except (List Char) (List Char) × List DeeplRequest :=
  match key with
  | none => (Except.error missing_key_error, [])
  | some k =>
    let params : DeeplRequest :=
      { auth_key := k, text := text, target_lang := target_lang,
        formality := formality_param formality }
    match net params with
    | Except.ok translated => (Except.ok translated, params :: [])
    | Except.error _ => (Except.ok text, params :: [])

/-- One iteration of the `for line in lines` loop of `process_rpy_file`
(translate.py lines 80-106).  State: the pending `buffer_old_text`.  Returns
the new buffer, the line appended to `output_lines`, and the requests issued
during the iteration; `Except.error` when the iteration raises. -/
def scan_step (key : Option (List Char)) (net : DeeplRequest → Except Unit (List Char))
    (target_lang formality : List Char) (buffer_old_text : Option (List Char))
    (line : List Char) :
    Except (List Char) (Option (List Char) × List Char × List DeeplRequest) :=
  match old_pattern_match line with
  | some t => Except.ok (some t, line, [])
  | none =>
    match new_pattern_match line, buffer_old_text with
    | some current_new_text, some old_text =>
      if py_strip current_new_text = [] then
        match translate_text key net old_text target_lang formality with
        | (Except.error e, _) => Except.error e
        | (Except.ok translation, reqs) =>
          match re_sub_new translation line with
          | none => Except.error re_error_bad_template
          | some updated_line => Except.ok (none, updated_line, reqs)
      else Except.ok (none, line, [])
    | _, _ => Except.ok (buffer_old_text, line, [])

/-- The whole scan of `process_rpy_file` over the line list (translate.py
lines 77-106): threads the buffer (initially `None`), collects the output
lines and the requests issued, and aborts on a raised exception. -/
def process_lines (key : Option (List Char)) (net : DeeplRequest → Except Unit (List Char))
    (target_lang formality : List Char) :
    Option (List Char) → List (List Char) →
      Except (List Char) (List (List Char) × List DeeplRequest)
  | _, [] => Except.ok ([], [])
  | buf, line :: rest =>
    match scan_step key net target_lang formality buf line with
    | Except.error e => Except.error e
    | Except.ok (buf2, out_line, reqs1) =>
      match process_lines key net target_lang formality buf2 rest with
      | Except.error e => Except.error e
      | Except.ok (out, reqs2) => Except.ok (out_line :: out, reqs1 ++ reqs2)

/-- Line-break characters recognised by Python `str.splitlines`. -/
def isLineBreak (c : Char) : Bool :=
  c = '\n' || c = '\r' || c = '\x0b' || c = '\x0c' ||
  c = '\x1c' || c = '\x1d' || c = '\x1e' || c = '\x85' ||
  c = '\u2028' || c = '\u2029'

/-- Worker for `py_splitlines`: `cur` is the current line, reversed.  A
`\r\n` pair counts as a single break; a final line without terminator is
kept unless empty. -/
def splitlines_go (cur : List Char) : List Char → List (List Char)
  | [] => if cur.isEmpty then [] else cur.reverse :: []
  | '\r' :: '\n' :: rest => cur.reverse :: splitlines_go [] rest
  | c :: rest =>
    if isLineBreak c then cur.reverse :: splitlines_go [] rest
    else splitlines_go (c :: cur) rest

/-- Embedding of Python `str.splitlines()` (translate.py line 76). -/
def py_splitlines (s : List Char) : List (List Char) :=
  splitlines_go [] s

/-- Embedding of `process_rpy_file` at the level of file content
(translate.py lines 62-109): split the content into lines, run the scan,
and join the output lines with a single newline (line 109 writes
`"\n".join(output_lines)` back to the file). -/
def process_rpy_content (key : Option (List Char))
    (net : DeeplRequest → Except Unit (List Char))
    (target_lang formality : List Char) (content : List Char) :
    Except (List Char) (List Char × List DeeplRequest) :=
  match process_lines key net target_lang formality none (py_splitlines content) with
  | Except.error e => Except.error e
  | Except.ok (out, reqs) => Except.ok (List.intercalate ('\n' :: []) out, reqs)

/-- The fixed spelled-out-name mapping (translate.py lines 21-29). -/
def LANGUAGE_MAP : List (List Char × List Char) :=
  (("german").data, ("DE").data) :: (("spanish").data, ("ES").data) ::
  (("english").data, ("EN").data) :: (("french").data, ("FR").data) ::
  (("italian").data, ("IT").data) :: (("polish").data, ("PL").data) :: []

/-- Embedding of the language resolution in `main` (translate.py lines
136-137): `user_lang = args.language.lower()` and
`target_lang = LANGUAGE_MAP.get(user_lang, user_lang.upper())`. -/
def resolve_target_lang (language : List Char) : List Char :=
  let user_lang := language.map Char.toLower
  match List.lookup user_lang LANGUAGE_MAP with
  | some code => code
  | none => user_lang.map Char.toUpper

/-- The language resolution as the specification words it: the value of the
fixed mapping at the lower-cased token when present, otherwise the
upper-cased user-supplied token. -/
def resolve_target_lang_spec (language : List Char) : List Char :=
  match List.lookup (language.map Char.toLower) LANGUAGE_MAP with
  | some code => code
  | none => language.map Char.toUpper

/-- A network that always fails at the transport level (every POST raises a
`requests.exceptions.RequestException`). -/
def net_fail : DeeplRequest → Except Unit (List Char) :=
  fun _ => Except.error ()

/-- A network whose response text is the two characters backslash-one. -/
def net_bs1 : DeeplRequest → Except Unit (List Char) :=
  fun _ => Except.ok ('\\' :: '1' :: [])

/-! Helper lemmas. -/

/-- No line matches both the source and the target declaration pattern:
after the leading whitespace one pattern requires `old`, the other `new`. -/
theorem old_new_exclusive (l : List Char) :
    old_pattern_match l = none ∨ new_pattern_match l = none := by
  unfold old_pattern_match new_pattern_match matchDecl
  cases h : l.dropWhile isPySpace with
  | nil => left; simp [List.isPrefixOf]
  | cons c cs =>
    by_cases hc : c = 'o'
    · right
      have hp : (('n' :: 'e' :: 'w' :: []).isPrefixOf (c :: cs)) = false := by
        subst hc; rfl
      simp [h, hp]
    · left
      have hb : (('o' : Char) == c) = false := by
        simp only [beq_eq_false_iff_ne, Ne]
        exact fun e => hc e.symm
      have hp : (('o' :: 'l' :: 'd' :: []).isPrefixOf (c :: cs)) = false := by
        simp [List.isPrefixOf, hb]
      simp [h, hp]

/-- A replacement template without backslashes parses to itself, literally. -/
theorem parse_template_go_no_bs (l : List Char) (h : '\\' ∉ l) :
    parse_template_go false l = some (l.map TItem.lit) := by
  induction l with
  | nil => rfl
  | cons c r ih =>
    have hc : ¬ c = '\\' := fun e => h (e ▸ List.mem_cons_self c r)
    have hr : '\\' ∉ r := fun m => h (List.mem_cons_of_mem _ m)
    rw [parse_template_go.eq_def]
    simp only [if_neg hc]
    rw [ih hr]
    rfl

/-- Expanding a template of literals yields those literals, whatever the
matched text was. -/
theorem expand_template_lits (l m : List Char) :
    expand_template (l.map TItem.lit) m = l := by
  induction l with
  | nil => rfl
  | cons c r ih => simp [expand_template, ih]

/-- A codepoint below the surrogate range round-trips through `Char.ofNat`. -/
theorem char_toNat_ofNat_of_lt {n : Nat} (h : n < 55296) :
    (Char.ofNat n).toNat = n := by
  rw [Char.ofNat, dif_pos (Or.inl h)]
  rfl

/-- Upper-casing after lower-casing is upper-casing (Lean `Char.toLower` and
`Char.toUpper` act on basic latin letters only). -/
theorem char_toUpper_toLower (c : Char) : c.toLower.toUpper = c.toUpper := by
  unfold Char.toLower Char.toUpper
  by_cases h : c.toNat ≥ 65 ∧ c.toNat ≤ 90
  · rw [if_pos h]
    have h1 : (Char.ofNat (c.toNat + 32)).toNat = c.toNat + 32 :=
      char_toNat_ofNat_of_lt (by omega)
    rw [h1, if_pos (by omega), if_neg (by omega), Nat.add_sub_cancel, Char.ofNat_toNat]
  · rw [if_neg h]

/-- A line matching the source pattern buffers its payload and is echoed
unchanged, with no request issued. -/
theorem scan_step_old (key : Option (List Char)) (net : DeeplRequest → Except Unit (List Char))
    (tl fm : List Char) (buf : Option (List Char)) (line t : List Char)
    (ho : old_pattern_match line = some t) :
    scan_step key net tl fm buf line = Except.ok (some t, line, []) := by
  unfold scan_step
  rw [ho]

/-- A line matching neither pattern is echoed unchanged and leaves the
buffer untouched. -/
theorem scan_step_plain (key : Option (List Char)) (net : DeeplRequest → Except Unit (List Char))
    (tl fm : List Char) (buf : Option (List Char)) (line : List Char)
    (ho : old_pattern_match line = none) (hn : new_pattern_match line = none) :
    scan_step key net tl fm buf line = Except.ok (buf, line, []) := by
  unfold scan_step
  rw [ho, hn]

/-- A list of lines matching neither pattern passes through the scan
verbatim, with no requests, whatever the initial buffer. -/
theorem process_lines_all_plain (key : Option (List Char))
    (net : DeeplRequest → Except Unit (List Char)) (tl fm : List Char) :
    ∀ (lines : List (List Char)) (buf : Option (List Char)),
      (∀ l ∈ lines, old_pattern_match l = none ∧ new_pattern_match l = none) →
      process_lines key net tl fm buf lines = Except.ok (lines, []) := by
  intro lines
  induction lines with
  | nil => intro buf _; rfl
  | cons line rest ih =>
    intro buf h
    have h1 := h line (List.mem_cons_self line rest)
    have h2 : ∀ l ∈ rest, old_pattern_match l = none ∧ new_pattern_match l = none :=
      fun l m => h l (List.mem_cons_of_mem _ m)
    simp only [process_lines, scan_step_plain key net tl fm buf line h1.1 h1.2,
      ih buf h2, List.nil_append]

/-- Upper-casing commutes over a prior lower-casing, character-wise. -/
theorem map_toUpper_toLower (l : List Char) :
    (l.map Char.toLower).map Char.toUpper = l.map Char.toUpper := by
  induction l with
  | nil => rfl
  | cons c r ih => simp [char_toUpper_toLower, ih]

/-! Claim theorems. -/

/-- C5: when the credential is absent, `translate_text` raises the
`ValueError` before any network activity: for every possible network the
result is the error and the list of issued HTTP requests is empty. -/
theorem claim5_missing_key_fails_fast (net : DeeplRequest → Except Unit (List Char))
    (text target_lang formality : List Char) :
    translate_text none net text target_lang formality =
      (Except.error missing_key_error, []) := rfl

/-- C6: the resolved target-language code is the value of the fixed mapping
at the lower-cased token when present, and otherwise the upper-cased token;
in particular `german` resolves to `DE` and the unknown token `xy` to `XY`. -/
theorem claim6_language_resolution :
    (∀ lang, resolve_target_lang lang = resolve_target_lang_spec lang) ∧
    resolve_target_lang (("german").data) = ("DE").data ∧
    resolve_target_lang (("xy").data) = ("XY").data := by
  refine ⟨fun lang => ?_, rfl, rfl⟩
  simp only [resolve_target_lang, resolve_target_lang_spec]
  cases hl : List.lookup (lang.map Char.toLower) LANGUAGE_MAP with
  | some code => rfl
  | none => exact map_toUpper_toLower lang

/-- C8: a target-declaration line with an empty payload reached with an
empty buffer is left unfilled and no translation is attempted: the result
holds for every key (even a missing one, which would make a translation
call raise) and every network, and the request list is empty. -/
theorem claim8_unpaired_empty_target (key : Option (List Char))
    (net : DeeplRequest → Except Unit (List Char)) (tl fm line cur : List Char)
    (hn : new_pattern_match line = some cur) (_he : py_strip cur = []) :
    scan_step key net tl fm none line = Except.ok (none, line, []) := by
  have ho : old_pattern_match line = none := by
    rcases old_new_exclusive line with h | h
    · exact h
    · rw [h] at hn; cases hn
  unfold scan_step
  rw [ho, hn]

/-- Witness for C8 at the line `new ""`, with no credential at all. -/
theorem claim8_unpaired_empty_target_witness :
    scan_step none net_fail (("DE").data) (("default").data) none (("new \"\"").data) =
      Except.ok (none, ("new \"\"").data, []) :=
  claim8_unpaired_empty_target none net_fail (("DE").data) (("default").data)
    (("new \"\"").data) [] rfl rfl

/-- C9: when no later line matches the target pattern, the scan of the
later lines does not depend on the pending buffer at all, so a source line
whose payload is only visible through the buffer has no effect on them. -/
theorem claim9_dangling_source_no_effect (key : Option (List Char))
    (net : DeeplRequest → Except Unit (List Char)) (tl fm : List Char) :
    ∀ (rest : List (List Char)),
      (∀ l ∈ rest, new_pattern_match l = none) →
      ∀ buf1 buf2, process_lines key net tl fm buf1 rest =
        process_lines key net tl fm buf2 rest := by
  intro rest
  induction rest with
  | nil => intro _ buf1 buf2; rfl
  | cons line rest ih =>
    intro h buf1 buf2
    have h1 := h line (List.mem_cons_self line rest)
    have h2 : ∀ l ∈ rest, new_pattern_match l = none :=
      fun l m => h l (List.mem_cons_of_mem _ m)
    cases ho : old_pattern_match line with
    | some t =>
      simp only [process_lines, scan_step_old key net tl fm buf1 line t ho,
        scan_step_old key net tl fm buf2 line t ho]
    | none =>
      simp only [process_lines, scan_step_plain key net tl fm buf1 line ho h1,
        scan_step_plain key net tl fm buf2 line ho h1, ih h2 buf1 buf2]

/-- Witness for C9: a buffered source payload versus no buffer, over one
unrelated line. -/
theorem claim9_dangling_source_no_effect_witness :
    process_lines (some (("K").data)) net_fail (("DE").data) (("default").data)
      (some (("Hi").data)) ((("hello").data) :: []) =
    process_lines (some (("K").data)) net_fail (("DE").data) (("default").data)
      none ((("hello").data) :: []) :=
  claim9_dangling_source_no_effect (some (("K").data)) net_fail (("DE").data)
    (("default").data) ((("hello").data) :: []) (by decide) (some (("Hi").data)) none

/-- C10: every completed scan emits exactly one output line per input line:
whenever `process_lines` returns normally, the output list has the same
length as the input list (and the order is the input order, each iteration
appending one line). -/
theorem claim10_line_count_preserved (key : Option (List Char))
    (net : DeeplRequest → Except Unit (List Char)) (tl fm : List Char)
    (lines : List (List Char)) (buf : Option (List Char)) (out : List (List Char))
    (reqs : List DeeplRequest)
    (h : process_lines key net tl fm buf lines = Except.ok (out, reqs)) :
    out.length = lines.length := by
  induction lines generalizing buf out reqs with
  | nil =>
    rw [process_lines] at h
    cases h
    rfl
  | cons line rest ih =>
    rw [process_lines] at h
    cases hs : scan_step key net tl fm buf line with
    | error e => rw [hs] at h; cases h
    | ok trip =>
      obtain ⟨buf2, out_line, reqs1⟩ := trip
      rw [hs] at h
      cases hp : process_lines key net tl fm buf2 rest with
      | error e => simp only [hp] at h; cases h
      | ok p =>
        obtain ⟨out2, reqs2⟩ := p
        simp only [hp] at h
        cases h
        simp [ih buf2 out2 reqs2 hp]

/-- Witness for C10 on a two-line file. -/
theorem claim10_line_count_preserved_witness :
    List.length ((("old \"Hi\"").data) :: (("abc").data) :: []) =
    List.length ((("old \"Hi\"").data) :: (("abc").data) :: []) :=
  claim10_line_count_preserved (some (("K").data)) net_fail (("DE").data)
    (("default").data) ((("old \"Hi\"").data) :: (("abc").data) :: []) none
    ((("old \"Hi\"").data) :: (("abc").data) :: []) [] rfl

/-- C3 counterexample: the pair `old "Hi"` / `new " "` has a non-empty
target payload (a single space), yet the code fills it, because the test is
`strip() == ""` rather than emptiness: the target line is not byte-identical
in the output.  The network here fails, so the fallback source text is used
as the translation. -/
theorem claim3_nonempty_target_cex :
    process_lines (some (("K").data)) net_fail (("DE").data) (("default").data) none
      ((("old \"Hi\"").data) :: (("new \" \"").data) :: []) =
      Except.ok (((("old \"Hi\"").data) :: (("new \"Hi\"").data) :: []),
        { auth_key := ("K").data, text := ("Hi").data, target_lang := ("DE").data,
          formality := none } :: []) ∧
    (("new \" \"").data) ≠ (("new \"Hi\"").data) :=
  ⟨rfl, by decide⟩

/-- C3 (amended): a target-declaration line whose quoted payload contains at
least one non-whitespace character is left byte-identical (whatever the
buffer), and only payloads that strip to the empty string are ever filled. -/
theorem claim3_nonwhitespace_target_untouched (key : Option (List Char))
    (net : DeeplRequest → Except Unit (List Char)) (tl fm : List Char)
    (buf : Option (List Char)) (line cur : List Char)
    (hn : new_pattern_match line = some cur) (hs : py_strip cur ≠ []) :
    scan_step key net tl fm buf line = Except.ok (none, line, []) := by
  have ho : old_pattern_match line = none := by
    rcases old_new_exclusive line with h | h
    · exact h
    · rw [h] at hn; cases hn
  unfold scan_step
  rw [ho, hn]
  cases buf with
  | none => rfl
  | some t => simp only [if_neg hs]

/-- Witness for the amended C3 at `new "x"` with a buffered source text. -/
theorem claim3_nonwhitespace_target_untouched_witness :
    scan_step (some (("K").data)) net_fail (("DE").data) (("default").data)
      (some (("Hi").data)) (("new \"x\"").data) =
      Except.ok (none, ("new \"x\"").data, []) :=
  claim3_nonwhitespace_target_untouched (some (("K").data)) net_fail (("DE").data)
    (("default").data) (some (("Hi").data)) (("new \"x\"").data) (('x') :: []) rfl
    (by decide)

/-- C4: the buffer invariant of the scan.  A source-declaration line sets the
buffer to its payload (and only such lines set it); a line matching neither
pattern leaves the buffer untouched; and after any target-declaration line
that is processed without raising, the buffer is empty, matched for
replacement or not. -/
theorem claim4_buffer_invariant (key : Option (List Char))
    (net : DeeplRequest → Except Unit (List Char)) (tl fm : List Char)
    (buf : Option (List Char)) (line : List Char) :
    (∀ t, old_pattern_match line = some t →
      scan_step key net tl fm buf line = Except.ok (some t, line, [])) ∧
    (old_pattern_match line = none → new_pattern_match line = none →
      scan_step key net tl fm buf line = Except.ok (buf, line, [])) ∧
    (∀ cur buf2 out reqs, new_pattern_match line = some cur →
      scan_step key net tl fm buf line = Except.ok (buf2, out, reqs) →
      buf2 = none) := by
  refine ⟨fun t ht => scan_step_old key net tl fm buf line t ht,
    fun ho hn => scan_step_plain key net tl fm buf line ho hn,
    fun cur buf2 out reqs hn hstep => ?_⟩
  have ho : old_pattern_match line = none := by
    rcases old_new_exclusive line with h | h
    · exact h
    · rw [h] at hn; cases hn
  cases buf with
  | none =>
    simp only [scan_step, ho, hn] at hstep
    cases hstep
    rfl
  | some t =>
    simp only [scan_step, ho, hn] at hstep
    split at hstep
    · split at hstep
      · cases hstep
      · split at hstep
        · cases hstep
        · cases hstep; rfl
    · cases hstep; rfl

/-- Witness for C4: part one at a source line, part two at an unrelated
line, part three at a target line reached with a buffered payload. -/
theorem claim4_buffer_invariant_witness :
    scan_step (some (("K").data)) net_fail (("DE").data) (("default").data) none
      (("old \"Hi\"").data) = Except.ok (some (("Hi").data), ("old \"Hi\"").data, []) ∧
    scan_step (some (("K").data)) net_fail (("DE").data) (("default").data)
      (some (("Hi").data)) (("hello").data) =
      Except.ok (some (("Hi").data), ("hello").data, []) ∧
    (none : Option (List Char)) = none :=
  ⟨(claim4_buffer_invariant (some (("K").data)) net_fail (("DE").data)
      (("default").data) none (("old \"Hi\"").data)).1 (("Hi").data) rfl,
   (claim4_buffer_invariant (some (("K").data)) net_fail (("DE").data)
      (("default").data) (some (("Hi").data)) (("hello").data)).2.1 rfl rfl,
   (claim4_buffer_invariant (some (("K").data)) net_fail (("DE").data)
      (("default").data) (some (("Hi").data)) (("new \"x\"").data)).2.2
      (('x') :: []) none (("new \"x\"").data) [] rfl rfl⟩

/-- C7 counterexample: a file whose single line `abc` carries a trailing
newline matches neither pattern, yet the written content is not equal to the
original content: `splitlines` plus a `"\n"` join drops the trailing line
terminator. -/
theorem claim7_verbatim_cex :
    process_rpy_content (some (("K").data)) net_fail (("DE").data) (("default").data)
      (("abc\n").data) = Except.ok (("abc").data, []) ∧
    (("abc").data) ≠ (("abc\n").data) :=
  ⟨rfl, by decide⟩

/-- C7 (amended): for a file none of whose lines matches either pattern, the
line sequence passes through verbatim and no request is issued; the content
written back is the original line sequence joined with single newlines,
which equals the original content only when that content was already
newline-joined without a trailing terminator. -/
theorem claim7_unrelated_lines_verbatim (key : Option (List Char))
    (net : DeeplRequest → Except Unit (List Char)) (tl fm content : List Char)
    (h : ∀ l ∈ py_splitlines content,
      old_pattern_match l = none ∧ new_pattern_match l = none) :
    process_rpy_content key net tl fm content =
      Except.ok (List.intercalate ('\n' :: []) (py_splitlines content), []) := by
  unfold process_rpy_content
  rw [process_lines_all_plain key net tl fm (py_splitlines content) none h]

/-- Witness for the amended C7 on a two-line file without patterns. -/
theorem claim7_unrelated_lines_verbatim_witness :
    process_rpy_content (some (("K").data)) net_fail (("DE").data) (("default").data)
      (("abc\ndef").data) =
      Except.ok (List.intercalate ('\n' :: []) (py_splitlines (("abc\ndef").data)), []) :=
  claim7_unrelated_lines_verbatim (some (("K").data)) net_fail (("DE").data)
    (("default").data) (("abc\ndef").data) (by decide)

/-- A network that answers every request with the translation `Hallo`. -/
def net_hallo : DeeplRequest → Except Unit (List Char) :=
  fun _ => Except.ok (("Hallo").data)

/-- C1 (amended): for a source line with payload `t` followed by the line
`new ""`, when the translation call answers `r` and `r` contains no
backslash, the transformer keeps the source line unchanged and replaces the
empty target payload with `r`, issuing exactly one request carrying `t`.
(Without the backslash proviso the replacement template would reprocess
escapes in `r`.) -/
theorem claim1_empty_target_filled (k tl fm l1 t r : List Char)
    (net : DeeplRequest → Except Unit (List Char))
    (h1 : old_pattern_match l1 = some t)
    (h2 : net { auth_key := k, text := t, target_lang := tl,
                formality := formality_param fm } = Except.ok r)
    (h3 : '\\' ∉ r) :
    process_lines (some k) net tl fm none (l1 :: (("new \"\"").data) :: []) =
      Except.ok (l1 :: (('n' :: 'e' :: 'w' :: ' ' :: '"' :: []) ++ r ++ '"' :: []) :: [],
        { auth_key := k, text := t, target_lang := tl,
          formality := formality_param fm } :: []) := by
  have htr : translate_text (some k) net t tl fm =
      (Except.ok r, ({ auth_key := k, text := t, target_lang := tl,
                       formality := formality_param fm } : DeeplRequest) :: []) := by
    simp only [translate_text, h2]
  have hbs : '\\' ∉ (('n' :: 'e' :: 'w' :: ' ' :: '"' :: []) ++ r ++ '"' :: []) := by
    intro hm
    rcases List.mem_append.mp hm with hm1 | hm2
    · rcases List.mem_append.mp hm1 with hm0 | hmr
      · exact absurd hm0 (by decide)
      · exact h3 hmr
    · exact absurd hm2 (by decide)
  have hre : re_sub_new r (("new \"\"").data) =
      some (('n' :: 'e' :: 'w' :: ' ' :: '"' :: []) ++ r ++ '"' :: []) := by
    have hparse := parse_template_go_no_bs _ hbs
    simp only [re_sub_new, parse_template, hparse]
    have hexp : sub_scan
        (((('n' :: 'e' :: 'w' :: ' ' :: '"' :: []) ++ r ++ '"' :: [])).map TItem.lit) 0
        (("new \"\"").data) =
        expand_template
          (((('n' :: 'e' :: 'w' :: ' ' :: '"' :: []) ++ r ++ '"' :: [])).map TItem.lit)
          (("new \"\"").data) ++ [] := rfl
    rw [hexp, expand_template_lits, List.append_nil]
  have ho2 : old_pattern_match (("new \"\"").data) = none := rfl
  have hn2 : new_pattern_match (("new \"\"").data) = some [] := rfl
  have hscan2 : scan_step (some k) net tl fm (some t) (("new \"\"").data) =
      Except.ok (none, ('n' :: 'e' :: 'w' :: ' ' :: '"' :: []) ++ r ++ '"' :: [],
        ({ auth_key := k, text := t, target_lang := tl,
           formality := formality_param fm } : DeeplRequest) :: []) := by
    simp only [scan_step, ho2, hn2]
    rw [if_pos (show py_strip [] = [] from rfl)]
    simp only [htr, hre]
  simp only [process_lines, scan_step_old (some k) net tl fm none l1 t h1, hscan2,
    List.nil_append, List.append_nil]

/-- Witness for the amended C1: `old "Hello"` over a network answering
`Hallo` yields `new "Hallo"` and one request carrying `Hello`. -/
theorem claim1_empty_target_filled_witness :
    process_lines (some (("K").data)) net_hallo (("DE").data) (("default").data) none
      ((("old \"Hello\"").data) :: (("new \"\"").data) :: []) =
      Except.ok ((("old \"Hello\"").data) :: (("new \"Hallo\"").data) :: [],
        { auth_key := ("K").data, text := ("Hello").data, target_lang := ("DE").data,
          formality := none } :: []) :=
  claim1_empty_target_filled (("K").data) (("DE").data) (("default").data)
    (("old \"Hello\"").data) (("Hello").data) (("Hallo").data) net_hallo rfl rfl
    (by decide)

/-- C1 counterexample: when the translation call answers the two characters
backslash-one, the empty target payload is not replaced by that result: the
replacement-template parse raises `re.error` and the transformer aborts. -/
theorem claim1_empty_target_filled_cex :
    process_lines (some (("K").data)) net_bs1 (("DE").data) (("default").data) none
      ((("old \"Hello\"").data) :: (("new \"\"").data) :: []) =
      Except.error re_error_bad_template := rfl

/-- C2: under transport failure `translate_text` indeed returns the original
text without raising, issuing the one failed request (first conjunct), but
the file-level pass-through breaks: for the file pair `old "\1"` / `new ""`
the fallback text backslash-one reaches the replacement template, whose
parse raises `re.error`, aborting the run instead of writing `new "\1"`
(second conjunct). -/
theorem claim2_pass_through_code_bug :
    translate_text (some (("K").data)) net_fail ('\\' :: '1' :: []) (("DE").data)
      (("default").data) =
      (Except.ok ('\\' :: '1' :: []),
        { auth_key := ("K").data, text := '\\' :: '1' :: [], target_lang := ("DE").data,
          formality := none } :: []) ∧
    process_lines (some (("K").data)) net_fail (("DE").data) (("default").data) none
      ((("old \"\\1\"").data) :: (("new \"\"").data) :: []) =
      Except.error re_error_bad_template :=
  ⟨rfl, rfl⟩
